import Mathlib

/-!
Verification development for the solana-casino Game Outcome and Settlement
Engine.  Each definition is a shallow embedding of the corresponding
TypeScript/JavaScript source function; JS numbers are modelled as rationals
(`ℚ`), byte values as `Fin 256`, and the SHA-256 digest as an abstract
function from strings to byte lists (the code only ever reads digest bytes,
never computes on the hash algorithm itself).
-/

namespace Casino

/-- Side of a coin as displayed by the coin flip game (`"heads" | "tails"`). -/
inductive CoinSide
  | heads
  | tails
deriving DecidableEq, Repr

/-- A digest is the byte array the JS code obtains from
`crypto.subtle.digest("SHA-256", ...)`, viewed as the list of its bytes. -/
abbrev Digest := List (Fin 256)

/-- Abstract model of the SHA-256 hash: a function from the input string to
its digest bytes.  All properties proved below hold for every such function,
in particular for real SHA-256. -/
abbrev Sha := String → Digest

/-- Reading `hashArray[0]`: the first byte of the digest (for real SHA-256 the
digest always has 32 bytes; an empty digest defaults to 0). -/
def firstByte (d : Digest) : Fin 256 := d.headD 0

/-- From `provablyFair.ts`: the combined seed string,
`userSeed ? blockhash-slot-userSeed : blockhash-slot`. -/
def combinedSeed (blockhash : String) (slot : Nat) (userSeed : Option String) : String :=
  match userSeed with
  | some us => blockhash ++ "-" ++ toString slot ++ "-" ++ us
  | none => blockhash ++ "-" ++ toString slot

/-- From `provablyFair.ts`: `randomPercent = (randomValue / 255) * 100` where
`randomValue` is the first digest byte. -/
def randomPercent (b : Fin 256) : ℚ := ((b.val : ℚ) / 255) * 100

/-- Result record returned by `generateProvablyFairResult`. -/
structure FairResult where
  result : CoinSide
  won : Bool
  blockhash : String
  slot : Nat
  seed : String
deriving DecidableEq, Repr

/-- From `provablyFair.ts`, `generateProvablyFairResult`: combine blockhash,
slot and optional user seed; hash; take the first byte; scale it to a
percentage; win iff that percentage is strictly below `winChance`; report
heads on a win and tails on a loss. -/
def generateProvablyFairResult (sha : Sha) (blockhash : String) (slot : Nat)
    (winChance : ℚ) (userSeed : Option String) : FairResult :=
  let seed := combinedSeed blockhash slot userSeed
  let b := firstByte (sha seed)
  let won := decide (randomPercent b < winChance)
  { result := if won then CoinSide.heads else CoinSide.tails
    won := won
    blockhash := blockhash
    slot := slot
    seed := seed }

/-- From `provablyFair.ts`, `verifyResult`: re-hash the seed, call the flip
heads iff the first digest byte is below 128, and compare with the expected
result. -/
def verifyResult (sha : Sha) (seed : String) (expectedResult : CoinSide) : Bool :=
  let b := firstByte (sha seed)
  let result := if b.val < 128 then CoinSide.heads else CoinSide.tails
  result == expectedResult

theorem randomPercent_lt_fifty_iff (b : Fin 256) : randomPercent b < 50 ↔ b.val < 128 := by
  unfold randomPercent
  rw [div_mul_eq_mul_div, div_lt_iff₀ (by norm_num : (0 : ℚ) < 255)]
  constructor
  · intro h
    have h2 : ((b.val * 100 : ℕ) : ℚ) < 12750 := by push_cast; linarith
    have h3 : (b.val * 100 : ℕ) < 12750 := by exact_mod_cast h2
    omega
  · intro h
    have h3 : (b.val * 100 : ℕ) < 12750 := by omega
    have h2 : ((b.val * 100 : ℕ) : ℚ) < 12750 := by exact_mod_cast h3
    push_cast at h2
    linarith

/-- C9: the fairness derivation is deterministic: for all seed material
(blockhash, slot, optional user seed), two invocations of the derivation on
identical input produce byte-identical digests and identical win/lose
results. -/
theorem fairness_derivation_deterministic (sha : Sha) (bh1 bh2 : String)
    (s1 s2 : Nat) (wc : ℚ) (us1 us2 : Option String)
    (hbh : bh1 = bh2) (hs : s1 = s2) (hus : us1 = us2) :
    sha (combinedSeed bh1 s1 us1) = sha (combinedSeed bh2 s2 us2) ∧
      generateProvablyFairResult sha bh1 s1 wc us1 =
        generateProvablyFairResult sha bh2 s2 wc us2 := by
  subst hbh; subst hs; subst hus; exact ⟨rfl, rfl⟩

theorem fairness_derivation_deterministic_witness :
    (fun _ : String => ([7] : Digest)) (combinedSeed "bh" 1 none) =
        (fun _ : String => ([7] : Digest)) (combinedSeed "bh" 1 none) ∧
      generateProvablyFairResult (fun _ => ([7] : Digest)) "bh" 1 50 none =
        generateProvablyFairResult (fun _ => ([7] : Digest)) "bh" 1 50 none :=
  fairness_derivation_deterministic (fun _ => ([7] : Digest)) "bh" "bh" 1 1 50
    none none rfl rfl rfl

/-- C10: round-trip of derivation and audit verification at winChance = 50:
for every seed material, the result computed by generateProvablyFairResult
(heads on win, tails on loss, win iff the hash-derived percentage is below 50)
is accepted by verifyResult on the same seed, because the win condition
coincides with the first-hash-byte-below-128 condition. -/
theorem generate_accepted_by_verify (sha : Sha) (bh : String) (slot : Nat)
    (us : Option String) :
    ((generateProvablyFairResult sha bh slot 50 us).won = true ↔
        (firstByte (sha (combinedSeed bh slot us))).val < 128) ∧
      verifyResult sha (generateProvablyFairResult sha bh slot 50 us).seed
        (generateProvablyFairResult sha bh slot 50 us).result = true := by
  unfold generateProvablyFairResult verifyResult
  by_cases h : (firstByte (sha (combinedSeed bh slot us))).val < 128
  · have hw : randomPercent (firstByte (sha (combinedSeed bh slot us))) < 50 :=
      (randomPercent_lt_fifty_iff _).mpr h
    simp [h, hw]
  · have hw : ¬ randomPercent (firstByte (sha (combinedSeed bh slot us))) < 50 :=
      fun hc => h ((randomPercent_lt_fifty_iff _).mp hc)
    simp [h, hw]

namespace Dice

/-- From the dice game component: `const HOUSE_EDGE = 0.01`. -/
def HOUSE_EDGE : ℚ := 1 / 100

/-- From the dice game component:
`winChance = rollOver ? 100 - target : target` (on the 0..100 percent scale). -/
def winChance (rollOver : Bool) (target : ℚ) : ℚ :=
  if rollOver then 100 - target else target

/-- From the dice game component:
`multiplier = ((1 - HOUSE_EDGE) * 100) / winChance`. -/
def multiplier (rollOver : Bool) (target : ℚ) : ℚ :=
  ((1 - HOUSE_EDGE) * 100) / winChance rollOver target

/-- From `rollDice`: `Math.floor((hashArray[0] / 255) * 99) + 1`, a roll
in 1..100. -/
def rollResult (b : Fin 256) : ℕ := b.val * 99 / 255 + 1

/-- From `rollDice`: `didWin = rollOver ? rollResult > target : rollResult < target`. -/
def didWin (rollOver : Bool) (target roll : ℕ) : Bool :=
  if rollOver then decide (target < roll) else decide (roll < target)

/-- From `rollDice`: the payout recorded for the wager,
`didWin ? amount * multiplier : 0`. -/
def payout (dw : Bool) (amount mult : ℚ) : ℚ := if dw then amount * mult else 0

/-- The uniform draw, on the same 1..100 scale as the dice roll, that the dice
game thresholds against its win chance: the roll itself when rolling under,
and its complement 100 - roll when rolling over. -/
def diceDraw (rollOver : Bool) (roll : ℕ) : ℚ :=
  if rollOver then 100 - (roll : ℚ) else (roll : ℚ)

end Dice

namespace CoinFlip

/-- From `game-config.ts`, GAME_CONFIG: `winMultiplier: 2` (2x payout on win). -/
def winMultiplier : ℚ := 2

/-- From `game-config.ts`, GAME_CONFIG: `houseEdge: 0` (0% house edge). -/
def houseEdge : ℚ := 0

/-- From `CoinFlipGame.tsx`: every flip calls
`generateProvablyFairResult(connection, 50, ...)`, a win chance of 50 percent. -/
def winChance : ℚ := 50

/-- From `CoinFlipGame.tsx`: the payout recorded for the wager,
`didWin ? amount * GAME_CONFIG.winMultiplier : 0`. -/
def payout (didWin : Bool) (amount : ℚ) : ℚ :=
  if didWin then amount * winMultiplier else 0

end CoinFlip

/-- C3: for every coin flip or dice wager, the resolver declares a win exactly
when the uniform draw is below winChance (for the coin flip, the draw is the
first digest byte scaled to a percentage; for dice, it is the roll when
rolling under and 100 - roll when rolling over), and the payout per unit
stake equals (1 - houseEdge) / winChance on a win (winChance expressed as a
probability, i.e. the percent value divided by 100) and 0 on a loss - for
dice with its 1% house edge and target-derived win chance, and for the coin
flip with its 0% house edge, 50% win chance and 2x win multiplier. -/
theorem dice_coinflip_win_rule_and_multiplier (sha : Sha) (bh : String)
    (slot : Nat) (us : Option String) (wc : ℚ) (rollOver : Bool)
    (target roll : ℕ) (stake : ℚ) (dw : Bool) :
    ((generateProvablyFairResult sha bh slot wc us).won = true ↔
        randomPercent (firstByte (sha (combinedSeed bh slot us))) < wc) ∧
      (Dice.didWin rollOver target roll = true ↔
        Dice.diceDraw rollOver roll < Dice.winChance rollOver (target : ℚ)) ∧
      Dice.payout dw stake (Dice.multiplier rollOver (target : ℚ)) =
        stake * (if dw then
          (1 - Dice.HOUSE_EDGE) / (Dice.winChance rollOver (target : ℚ) / 100)
          else 0) ∧
      CoinFlip.payout dw stake =
        stake * (if dw then
          (1 - CoinFlip.houseEdge) / (CoinFlip.winChance / 100) else 0) := by
  refine ⟨by simp [generateProvablyFairResult], ?_, ?_, ?_⟩
  · cases rollOver with
    | false =>
        simp only [Dice.didWin, Dice.diceDraw, Dice.winChance, if_false,
          Bool.false_eq_true, decide_eq_true_eq]
        exact_mod_cast Iff.rfl
    | true =>
        simp only [Dice.didWin, Dice.diceDraw, Dice.winChance, if_true,
          decide_eq_true_eq]
        constructor
        · intro h
          have : (target : ℚ) < (roll : ℚ) := by exact_mod_cast h
          linarith
        · intro h
          have : (target : ℚ) < (roll : ℚ) := by linarith
          exact_mod_cast this
  · cases dw with
    | false => simp [Dice.payout]
    | true =>
        simp only [Dice.payout, Dice.multiplier, if_true]
        rw [div_div_eq_mul_div]
  · cases dw with
    | false => simp [CoinFlip.payout]
    | true =>
        simp only [CoinFlip.payout, if_true]
        norm_num [CoinFlip.winMultiplier, CoinFlip.houseEdge, CoinFlip.winChance]

namespace Crash

/-- From `CrashGame.tsx`: `const HOUSE_EDGE = 0.01`. -/
def HOUSE_EDGE : ℚ := 1 / 100

/-- From `generateCrashPoint`: the unclamped point,
`Math.floor((99 / (1 - value)) * 100) / 100`. -/
def point (u : ℚ) : ℚ := ((Int.floor (99 / (1 - u) * 100) : ℤ) : ℚ) / 100

/-- From `CrashGame.tsx`, `generateCrashPoint`: the uniform draw `u` is the
first four digest bytes read as a big-endian word divided by 2^32; the result
is 1.0 when `u` is below the house edge, and otherwise the floored point
clamped by `Math.max(1.0, Math.min(point, 1000))`. -/
def generateCrashPoint (u : ℚ) : ℚ :=
  if u < HOUSE_EDGE then 1 else max 1 (min (point u) 1000)

/-- The crash point exactly as the claim states it: 1.00 below the house
edge, otherwise floor(99/(1-u)*100)/100 clamped so that it is never below
1.00 and never above the ceiling 1000. -/
def crashPointClaim (u : ℚ) : ℚ :=
  if u < HOUSE_EDGE then 1
  else min 1000 (max 1 (((Int.floor (99 / (1 - u) * 100) : ℤ) : ℚ) / 100))

theorem point_ge_99 (u : ℚ) (h0 : 0 ≤ u) (h1 : u < 1) : (99 : ℚ) ≤ point u := by
  unfold point
  have hpos : 0 < 1 - u := by linarith
  have h99 : (9900 : ℚ) ≤ 99 / (1 - u) * 100 := by
    rw [div_mul_eq_mul_div, le_div_iff₀ hpos]
    nlinarith
  have hfl : (9900 : ℤ) ≤ Int.floor (99 / (1 - u) * 100) :=
    Int.le_floor.mpr (by exact_mod_cast h99)
  have hc : (9900 : ℚ) ≤ ((Int.floor (99 / (1 - u) * 100) : ℤ) : ℚ) := by
    exact_mod_cast hfl
  linarith

theorem point_mono (u1 u2 : ℚ) (h12 : u1 ≤ u2) (h2 : u2 < 1) :
    point u1 ≤ point u2 := by
  unfold point
  have hp1 : 0 < 1 - u1 := by linarith
  have hp2 : 0 < 1 - u2 := by linarith
  have hdiv : 99 / (1 - u1) ≤ 99 / (1 - u2) := by
    apply div_le_div_of_nonneg_left (by norm_num) hp2
    linarith
  have hmul : 99 / (1 - u1) * 100 ≤ 99 / (1 - u2) * 100 := by linarith
  have hfl : Int.floor (99 / (1 - u1) * 100) ≤ Int.floor (99 / (1 - u2) * 100) :=
    Int.floor_le_floor hmul
  have hc : ((Int.floor (99 / (1 - u1) * 100) : ℤ) : ℚ) ≤
      ((Int.floor (99 / (1 - u2) * 100) : ℤ) : ℚ) := by exact_mod_cast hfl
  linarith

end Crash

/-- C4: for every uniform draw u in [0,1): if u < houseEdge the resolved
crash point is exactly 1.00; otherwise it equals floor(99/(1-u)*100)/100
clamped to the interval [1.00, 1000] (and the lower clamp is in fact
redundant, since the floored point is already at least 99). -/
theorem crash_point_formula_and_clamp (u : ℚ) (h0 : 0 ≤ u) (h1 : u < 1) :
    Crash.generateCrashPoint u = Crash.crashPointClaim u ∧
      1 ≤ Crash.generateCrashPoint u ∧
      Crash.generateCrashPoint u ≤ 1000 ∧
      (u < Crash.HOUSE_EDGE → Crash.generateCrashPoint u = 1) ∧
      (Crash.HOUSE_EDGE ≤ u →
        Crash.generateCrashPoint u = min (Crash.point u) 1000) := by
  by_cases h : u < Crash.HOUSE_EDGE
  · refine ⟨?_, ?_, ?_, fun _ => ?_, fun hle => absurd h (not_lt.mpr hle)⟩ <;>
      simp [Crash.generateCrashPoint, Crash.crashPointClaim, h]
  · have hge : (99 : ℚ) ≤ Crash.point u := Crash.point_ge_99 u h0 h1
    have hmax : max 1 (min (Crash.point u) 1000) = min (Crash.point u) 1000 :=
      max_eq_right (le_min (by linarith) (by norm_num))
    have hval : Crash.generateCrashPoint u = min (Crash.point u) 1000 := by
      rw [Crash.generateCrashPoint, if_neg h, hmax]
    refine ⟨?_, ?_, ?_, fun hlt => absurd hlt h, fun _ => hval⟩
    · rw [Crash.crashPointClaim, if_neg h, hval]
      rw [show max 1 (((Int.floor (99 / (1 - u) * 100) : ℤ) : ℚ) / 100) =
            Crash.point u from max_eq_right (by unfold Crash.point at hge; linarith)]
      exact (min_comm _ _)
    · rw [hval]
      exact le_min (by linarith) (by norm_num)
    · rw [hval]
      exact min_le_right _ _

theorem crash_point_formula_and_clamp_witness :
    (0 : ℚ) ≤ 1 / 2 ∧ (1 : ℚ) / 2 < 1 ∧
      (Crash.generateCrashPoint (1 / 2) = Crash.crashPointClaim (1 / 2) ∧
        1 ≤ Crash.generateCrashPoint (1 / 2) ∧
        Crash.generateCrashPoint (1 / 2) ≤ 1000 ∧
        ((1 : ℚ) / 2 < Crash.HOUSE_EDGE → Crash.generateCrashPoint (1 / 2) = 1) ∧
        (Crash.HOUSE_EDGE ≤ 1 / 2 →
          Crash.generateCrashPoint (1 / 2) = min (Crash.point (1 / 2)) 1000)) :=
  ⟨by norm_num, by norm_num,
    crash_point_formula_and_clamp (1 / 2) (by norm_num) (by norm_num)⟩

/-- C5: the crash-point function is monotonically non-decreasing in the
uniform draw over draws at or above the house edge, and every draw below the
house edge yields a crash point of exactly 1.00. -/
theorem crash_point_monotone (u1 u2 : ℚ) (hhe : Crash.HOUSE_EDGE ≤ u1)
    (h12 : u1 ≤ u2) (h2 : u2 < 1) :
    Crash.generateCrashPoint u1 ≤ Crash.generateCrashPoint u2 ∧
      ∀ u : ℚ, u < Crash.HOUSE_EDGE → Crash.generateCrashPoint u = 1 := by
  constructor
  · have hn1 : ¬ u1 < Crash.HOUSE_EDGE := not_lt.mpr hhe
    have hn2 : ¬ u2 < Crash.HOUSE_EDGE := not_lt.mpr (le_trans hhe h12)
    rw [Crash.generateCrashPoint, Crash.generateCrashPoint, if_neg hn1, if_neg hn2]
    exact max_le_max (le_refl 1)
      (min_le_min (Crash.point_mono u1 u2 h12 h2) (le_refl 1000))
  · intro u hu
    rw [Crash.generateCrashPoint, if_pos hu]

theorem crash_point_monotone_witness :
    Crash.HOUSE_EDGE ≤ (1 : ℚ) / 2 ∧ (1 : ℚ) / 2 ≤ 3 / 4 ∧ (3 : ℚ) / 4 < 1 ∧
      (Crash.generateCrashPoint (1 / 2) ≤ Crash.generateCrashPoint (3 / 4) ∧
        ∀ u : ℚ, u < Crash.HOUSE_EDGE → Crash.generateCrashPoint u = 1) :=
  ⟨by norm_num [Crash.HOUSE_EDGE], by norm_num, by norm_num,
    crash_point_monotone (1 / 2) (3 / 4) (by norm_num [Crash.HOUSE_EDGE])
      (by norm_num) (by norm_num)⟩

namespace Roulette

/-- From the roulette component, `spin`:
`const winningNumber = Math.floor(Math.random() * 37)`. -/
def winningNumber (r : ℚ) : ℤ := Int.floor (r * 37)

/-- The bet types of the roulette component's settlement switch. -/
inductive BetType
  | number (n : ℤ)
  | red
  | black
  | even
  | odd
  | low
  | high
deriving DecidableEq, Repr

/-- Wheel colors returned by `getNumberColor`. -/
inductive Color
  | red
  | black
  | green
deriving DecidableEq, Repr

/-- From the roulette component: `const RED_NUMBERS = [...]`. -/
def RED_NUMBERS : List ℤ :=
  [1, 3, 5, 7, 9, 12, 14, 16, 18, 19, 21, 23, 25, 27, 30, 32, 34, 36]

/-- From the roulette component, `getNumberColor`: 0 is green, numbers in
RED_NUMBERS are red, all others black. -/
def getNumberColor (num : ℤ) : Color :=
  if num = 0 then Color.green
  else if num ∈ RED_NUMBERS then Color.red else Color.black

/-- From the settlement switch in `spin`: the contribution of one bet
(type and amount) to `totalWin` given the winning number `w`. -/
def betContribution (w : ℤ) (bet : BetType × ℚ) : ℚ :=
  match bet.1 with
  | BetType.number n => if n = w then bet.2 * 36 else 0
  | BetType.red => if getNumberColor w = Color.red then bet.2 * 2 else 0
  | BetType.black => if getNumberColor w = Color.black then bet.2 * 2 else 0
  | BetType.even => if w ≠ 0 ∧ w % 2 = 0 then bet.2 * 2 else 0
  | BetType.odd => if w % 2 = 1 then bet.2 * 2 else 0
  | BetType.low => if 1 ≤ w ∧ w ≤ 18 then bet.2 * 2 else 0
  | BetType.high => if 19 ≤ w ∧ w ≤ 36 then bet.2 * 2 else 0

/-- The `bets.forEach` accumulation of `totalWin` in `spin`. -/
def spinTotalWin (bets : List (BetType × ℚ)) (w : ℤ) : ℚ :=
  (bets.map (betContribution w)).sum

/-- The fixed-table reading of the claim: when does a bet type cover the
winning number. -/
def covers (t : BetType) (w : ℤ) : Prop :=
  match t with
  | BetType.number n => n = w
  | BetType.red => getNumberColor w = Color.red
  | BetType.black => getNumberColor w = Color.black
  | BetType.even => w ≠ 0 ∧ w % 2 = 0
  | BetType.odd => w % 2 = 1
  | BetType.low => 1 ≤ w ∧ w ≤ 18
  | BetType.high => 19 ≤ w ∧ w ≤ 36

instance coversDecidable (t : BetType) (w : ℤ) : Decidable (covers t w) := by
  cases t <;> simp only [covers] <;> infer_instance

/-- The fixed payout table of the claim: 36 times the stake for a straight-up
bet, 2 times the stake for color, parity and range bets. -/
def tableMultiplier : BetType → ℚ
  | BetType.number _ => 36
  | _ => 2

end Roulette

/-- C6: for every roulette spin, exactly one winning number in [0,36] is
selected, a straight-up bet on the winning number returns 36 times its stake
(stake 1 returns exactly 36), and every bet returns table-multiplier times
its stake when it covers the winning number and 0 otherwise (2x for
red/black/even/odd/1-18/19-36). -/
theorem roulette_winning_number_and_payout_table (r : ℚ) (h0 : 0 ≤ r)
    (h1 : r < 1) (w : ℤ) (t : Roulette.BetType) (a : ℚ) :
    (0 ≤ Roulette.winningNumber r ∧ Roulette.winningNumber r ≤ 36) ∧
      Roulette.betContribution w (Roulette.BetType.number w, 1) = 36 ∧
      Roulette.betContribution w (t, a) =
        (if Roulette.covers t w then a * Roulette.tableMultiplier t else 0) ∧
      Roulette.spinTotalWin [(Roulette.BetType.number w, 1)] w = 36 := by
  refine ⟨⟨?_, ?_⟩, ?_, ?_, ?_⟩
  · exact Int.floor_nonneg.mpr (by positivity)
  · have hlt : Roulette.winningNumber r < 37 :=
      Int.floor_lt.mpr (by push_cast; nlinarith)
    omega
  · simp [Roulette.betContribution]
  · cases t <;> simp [Roulette.betContribution, Roulette.covers,
      Roulette.tableMultiplier]
  · simp [Roulette.spinTotalWin, Roulette.betContribution]

theorem roulette_winning_number_and_payout_table_witness :
    (0 : ℚ) ≤ 1 / 2 ∧ (1 : ℚ) / 2 < 1 ∧
      ((0 ≤ Roulette.winningNumber (1 / 2) ∧ Roulette.winningNumber (1 / 2) ≤ 36) ∧
        Roulette.betContribution 7 (Roulette.BetType.number 7, 1) = 36 ∧
        Roulette.betContribution 7 (Roulette.BetType.red, 1) =
          (if Roulette.covers Roulette.BetType.red 7 then
            1 * Roulette.tableMultiplier Roulette.BetType.red else 0) ∧
        Roulette.spinTotalWin [(Roulette.BetType.number 7, 1)] 7 = 36) :=
  ⟨by norm_num, by norm_num,
    roulette_winning_number_and_payout_table (1 / 2) (by norm_num) (by norm_num)
      7 Roulette.BetType.red 1⟩

namespace Slots

/-- The seven reel symbols of `SlotsGame.tsx` (seven is the jackpot symbol). -/
inductive Sym
  | seven
  | diamond
  | clover
  | bell
  | star
  | cherry
  | lemon
deriving DecidableEq, Repr

/-- From `SlotsGame.tsx`: `const INITIAL_JACKPOT = 5000`. -/
def INITIAL_JACKPOT : ℚ := 5000

/-- From `SlotsGame.tsx`: `const JACKPOT_CONTRIBUTION = 0.02`. -/
def JACKPOT_CONTRIBUTION : ℚ := 2 / 100

/-- The three-of-a-kind column of the PAYOUTS table; `none` marks the
JACKPOT entry for three sevens. -/
def payoutThree : Sym → Option ℚ
  | Sym.seven => none
  | Sym.diamond => some 500
  | Sym.clover => some 100
  | Sym.bell => some 50
  | Sym.star => some 25
  | Sym.cherry => some 10
  | Sym.lemon => some 5

/-- The two-of-a-kind column of the PAYOUTS table. -/
def payoutTwo : Sym → ℚ
  | Sym.seven => 50
  | Sym.diamond => 25
  | Sym.clover => 10
  | Sym.bell => 5
  | Sym.star => 3
  | Sym.cherry => 2
  | Sym.lemon => 2

/-- The win result of `calculateWin`; the JACKPOT branch is the one whose
type string contains JACKPOT, recorded here as the `isJackpot` flag. -/
structure WinResult where
  amount : ℚ
  isJackpot : Bool
deriving DecidableEq, Repr

/-- From `SlotsGame.tsx`, `calculateWin`: three of a kind pays the table
value times the bet (the jackpot pool itself for three sevens); otherwise any
two matching reels pay the two-of-a-kind value of the matched symbol.
`jackpot` is the value of the jackpot state variable captured by the render
in which the spin runs. -/
def calculateWin (jackpot : ℚ) (s1 s2 s3 : Sym) (betAmt : ℚ) : WinResult :=
  if s1 = s2 ∧ s2 = s3 then
    match payoutThree s1 with
    | none => { amount := jackpot, isJackpot := true }
    | some p => { amount := betAmt * p, isJackpot := false }
  else if s1 = s2 then { amount := betAmt * payoutTwo s1, isJackpot := false }
  else if s2 = s3 then { amount := betAmt * payoutTwo s2, isJackpot := false }
  else if s1 = s3 then { amount := betAmt * payoutTwo s1, isJackpot := false }
  else { amount := 0, isJackpot := false }

/-- The jackpot-relevant effects of one spin. -/
structure SpinOutcome where
  jackpotAfterContribution : ℚ
  payout : ℚ
  isJackpot : Bool
  jackpotFinal : ℚ
deriving DecidableEq, Repr

/-- From `SlotsGame.tsx`, `spin`: after the bet transfer confirms the
component runs `setJackpot(prev => prev + amount * JACKPOT_CONTRIBUTION)`;
once the reels stop it calls `calculateWin(finalReels, amount)`, which reads
the `jackpot` variable captured by the running closure, i.e. the value from
before the contribution; on a JACKPOT result it runs
`setJackpot(INITIAL_JACKPOT)`, otherwise the contributed pool stands. -/
def spinJackpotFlow (jackpot : ℚ) (amount : ℚ) (s1 s2 s3 : Sym) : SpinOutcome :=
  let afterContribution := jackpot + amount * JACKPOT_CONTRIBUTION
  let result := calculateWin jackpot s1 s2 s3 amount
  { jackpotAfterContribution := afterContribution
    payout := result.amount
    isJackpot := result.isJackpot
    jackpotFinal := if result.isJackpot then INITIAL_JACKPOT else afterContribution }

end Slots

/-- C7 counterexample: with pool 5000 and stake 1, the wager's 2%
contribution raises the pool to 5000.02, but hitting three sevens pays only
5000 (the stale pool captured before the contribution), so the wager does not
pay the full jackpot pool. -/
theorem slots_jackpot_pays_stale_pool :
    (Slots.spinJackpotFlow 5000 1 Slots.Sym.seven Slots.Sym.seven
        Slots.Sym.seven).payout = 5000 ∧
      (Slots.spinJackpotFlow 5000 1 Slots.Sym.seven Slots.Sym.seven
        Slots.Sym.seven).jackpotAfterContribution = 5000 + 2 / 100 ∧
      (Slots.spinJackpotFlow 5000 1 Slots.Sym.seven Slots.Sym.seven
          Slots.Sym.seven).payout ≠
        (Slots.spinJackpotFlow 5000 1 Slots.Sym.seven Slots.Sym.seven
          Slots.Sym.seven).jackpotAfterContribution := by
  refine ⟨rfl, by norm_num [Slots.spinJackpotFlow, Slots.JACKPOT_CONTRIBUTION], ?_⟩
  norm_num [Slots.spinJackpotFlow, Slots.calculateWin, Slots.payoutThree,
    Slots.JACKPOT_CONTRIBUTION]

/-- C7 (amended): for every slots wager, 2% of the stake increments the
jackpot pool; the jackpot combination is exactly three jackpot symbols
(sevens), and hitting it pays the jackpot pool as captured at the start of
the spin - excluding that wager's own contribution - after which the pool is
reset to its seed value 5000. -/
theorem slots_contribution_and_jackpot_reset (j a : ℚ) (s1 s2 s3 : Slots.Sym) :
    (Slots.spinJackpotFlow j a s1 s2 s3).jackpotAfterContribution =
        j + a * (2 / 100) ∧
      ((Slots.spinJackpotFlow j a s1 s2 s3).isJackpot = true ↔
        s1 = Slots.Sym.seven ∧ s2 = Slots.Sym.seven ∧ s3 = Slots.Sym.seven) ∧
      (s1 = Slots.Sym.seven ∧ s2 = Slots.Sym.seven ∧ s3 = Slots.Sym.seven →
        (Slots.spinJackpotFlow j a s1 s2 s3).payout = j ∧
          (Slots.spinJackpotFlow j a s1 s2 s3).jackpotFinal =
            Slots.INITIAL_JACKPOT) := by
  refine ⟨rfl, ?_, ?_⟩
  · cases s1 <;> cases s2 <;> cases s3 <;>
      simp [Slots.spinJackpotFlow, Slots.calculateWin, Slots.payoutThree]
  · rintro ⟨rfl, rfl, rfl⟩
    exact ⟨rfl, rfl⟩

theorem slots_contribution_and_jackpot_reset_witness :
    (Slots.spinJackpotFlow 5000 1 Slots.Sym.seven Slots.Sym.seven
          Slots.Sym.seven).jackpotAfterContribution = 5000 + 1 * (2 / 100) ∧
      ((Slots.spinJackpotFlow 5000 1 Slots.Sym.seven Slots.Sym.seven
            Slots.Sym.seven).isJackpot = true ↔
        Slots.Sym.seven = Slots.Sym.seven ∧ Slots.Sym.seven = Slots.Sym.seven ∧
          Slots.Sym.seven = Slots.Sym.seven) ∧
      (Slots.Sym.seven = Slots.Sym.seven ∧ Slots.Sym.seven = Slots.Sym.seven ∧
          Slots.Sym.seven = Slots.Sym.seven →
        (Slots.spinJackpotFlow 5000 1 Slots.Sym.seven Slots.Sym.seven
            Slots.Sym.seven).payout = 5000 ∧
          (Slots.spinJackpotFlow 5000 1 Slots.Sym.seven Slots.Sym.seven
            Slots.Sym.seven).jackpotFinal = Slots.INITIAL_JACKPOT) :=
  slots_contribution_and_jackpot_reset 5000 1 Slots.Sym.seven Slots.Sym.seven
    Slots.Sym.seven

namespace PayoutServer

/-- From `@solana/web3.js`: one SOL is 10^9 lamports. -/
def LAMPORTS_PER_SOL : ℕ := 1000000000

/-- A record pushed onto `payoutHistory` by the payout server. -/
structure PayoutRecord where
  gameId : String
  playerWallet : String
  amount : ℚ
  signature : String
  blockhash : String
  slot : ℕ
  timestamp : ℕ
deriving DecidableEq, Repr

/-- The server's mutable stores: the `payoutHistory` array, the
`pendingPayouts` map (modelled by its key list), and - for counting on-chain
sends - the log of transfers submitted via `sendRawTransaction`, as
(destination wallet, lamports) pairs. -/
structure ServerState where
  payoutHistory : List PayoutRecord
  pendingPayouts : List String
  transferLog : List (String × ℤ)
deriving DecidableEq, Repr

/-- The body of `POST /api/payout`. -/
structure PayoutRequest where
  playerWallet : String
  amount : ℚ
  gameId : String
  blockhash : String
  slot : ℕ
deriving DecidableEq, Repr

/-- The server's environment for one request: whether the house keypair
loaded, which wallet strings parse as public keys, the house balance returned
by the RPC, the fresh blockhash and the transaction signature the ledger
produces, and whether the send and the confirmation succeed. -/
structure Env where
  houseConfigured : Bool
  walletValid : String → Bool
  houseBalanceLamports : ℕ
  recentBlockhash : String
  freshSignature : String
  sendOk : Bool
  confirmOk : Bool
  now : ℕ

/-- The JSON body of the HTTP response, with every field the handler can set. -/
structure PayoutResponse where
  status : ℕ
  success : Bool
  signature : Option String
  message : Option String
  explorerUrl : Option String
  error : Option String
deriving DecidableEq, Repr

/-- `Math.floor(amount * LAMPORTS_PER_SOL)`. -/
def solToLamports (amount : ℚ) : ℤ := Int.floor (amount * (LAMPORTS_PER_SOL : ℚ))

/-- An error response: `res.status(s).json({ success: false, error })`. -/
def errorResponse (status : ℕ) (msg : String) : PayoutResponse :=
  { status := status, success := false, signature := none, message := none,
    explorerUrl := none, error := some msg }

/-- The record pushed on the success path. -/
def successRecord (env : Env) (req : PayoutRequest) : PayoutRecord :=
  { gameId := req.gameId
    playerWallet := req.playerWallet
    amount := req.amount
    signature := env.freshSignature
    blockhash := if req.blockhash = "" then env.recentBlockhash else req.blockhash
    slot := req.slot
    timestamp := env.now }

/-- From the payout server, `app.post("/api/payout")`: validate the fields,
require a configured house wallet, refuse a gameId that is still pending,
return the cached record for a gameId already in `payoutHistory`, mark the
gameId pending, then - inside the try block - validate the player key, check
the house balance against the payout plus 5000 lamports of fees, send and
confirm the transfer, record the payout and clear the pending mark (every
error path also clears the pending mark before responding). -/
def processPayout (env : Env) (st : ServerState) (req : PayoutRequest) :
    PayoutResponse × ServerState :=
  if req.playerWallet = "" ∨ req.amount = 0 ∨ req.gameId = "" then
    (errorResponse 400 "Missing required fields: playerWallet, amount, gameId", st)
  else if env.houseConfigured = false then
    (errorResponse 503 "House wallet not configured. Please set up the server.", st)
  else if req.gameId ∈ st.pendingPayouts then
    (errorResponse 409 "Payout for this game is already being processed", st)
  else
    match st.payoutHistory.find? (fun p => p.gameId == req.gameId) with
    | some existing =>
        ({ status := 200, success := true, signature := some existing.signature,
           message := some "Payout already processed", explorerUrl := none,
           error := none }, st)
    | none =>
        let pending1 := req.gameId :: st.pendingPayouts
        if env.walletValid req.playerWallet = false then
          (errorResponse 500 "Invalid public key input",
           { st with pendingPayouts := pending1.erase req.gameId })
        else
          let lamports := solToLamports req.amount
          if (env.houseBalanceLamports : ℤ) < lamports + 5000 then
            (errorResponse 503 "Insufficient house wallet balance",
             { st with pendingPayouts := pending1.erase req.gameId })
          else if env.sendOk = false then
            (errorResponse 500 "Transaction send failed",
             { st with pendingPayouts := pending1.erase req.gameId })
          else
            let log1 := st.transferLog ++ [(req.playerWallet, lamports)]
            if env.confirmOk = false then
              (errorResponse 500 "Transaction failed to confirm",
               { st with
                  pendingPayouts := pending1.erase req.gameId
                  transferLog := log1 })
            else
              ({ status := 200, success := true,
                 signature := some env.freshSignature, message := none,
                 explorerUrl := some ("https://explorer.solana.com/tx/" ++
                   env.freshSignature ++ "?cluster=devnet"),
                 error := none },
               { payoutHistory := st.payoutHistory ++ [successRecord env req]
                 pendingPayouts := pending1.erase req.gameId
                 transferLog := log1 })

theorem find?_append_of_none {α : Type} {p : α → Bool} {l1 l2 : List α}
    (h : l1.find? p = none) : (l1 ++ l2).find? p = l2.find? p := by
  induction l1 with
  | nil => rfl
  | cons a l ih =>
      cases hpa : p a with
      | true =>
          rw [List.find?_cons_of_pos _ hpa] at h
          exact absurd h (by simp)
      | false =>
          rw [List.find?_cons_of_neg _ (by simp [hpa])] at h
          rw [List.cons_append, List.find?_cons_of_neg _ (by simp [hpa])]
          exact ih h

theorem processPayout_success (env : Env) (st : ServerState) (req : PayoutRequest)
    (hw : req.playerWallet ≠ "") (ha : req.amount ≠ 0) (hg : req.gameId ≠ "")
    (hconf : env.houseConfigured = true)
    (hpend : req.gameId ∉ st.pendingPayouts)
    (hnew : st.payoutHistory.find? (fun p => p.gameId == req.gameId) = none)
    (hvalid : env.walletValid req.playerWallet = true)
    (hbal : solToLamports req.amount + 5000 ≤ (env.houseBalanceLamports : ℤ))
    (hsend : env.sendOk = true) (hcf : env.confirmOk = true) :
    processPayout env st req =
      ({ status := 200, success := true, signature := some env.freshSignature,
         message := none,
         explorerUrl := some ("https://explorer.solana.com/tx/" ++
           env.freshSignature ++ "?cluster=devnet"),
         error := none },
       { payoutHistory := st.payoutHistory ++ [successRecord env req]
         pendingPayouts := st.pendingPayouts
         transferLog := st.transferLog ++
           [(req.playerWallet, solToLamports req.amount)] }) := by
  unfold processPayout
  rw [if_neg (by simp [hw, ha, hg]), if_neg (by simp [hconf]), if_neg hpend,
    hnew]
  simp only [if_neg (by simp [hvalid] : ¬ env.walletValid req.playerWallet = false),
    if_neg (not_lt.mpr hbal),
    if_neg (by simp [hsend] : ¬ env.sendOk = false),
    if_neg (by simp [hcf] : ¬ env.confirmOk = false),
    List.erase_cons_head]

theorem processPayout_cached (env : Env) (st : ServerState) (req : PayoutRequest)
    (existing : PayoutRecord)
    (hw : req.playerWallet ≠ "") (ha : req.amount ≠ 0) (hg : req.gameId ≠ "")
    (hconf : env.houseConfigured = true)
    (hpend : req.gameId ∉ st.pendingPayouts)
    (hfound : st.payoutHistory.find? (fun p => p.gameId == req.gameId) =
      some existing) :
    processPayout env st req =
      ({ status := 200, success := true, signature := some existing.signature,
         message := some "Payout already processed", explorerUrl := none,
         error := none }, st) := by
  unfold processPayout
  rw [if_neg (by simp [hw, ha, hg]), if_neg (by simp [hconf]), if_neg hpend,
    hfound]

theorem processPayout_insufficient (env : Env) (st : ServerState)
    (req : PayoutRequest)
    (hw : req.playerWallet ≠ "") (ha : req.amount ≠ 0) (hg : req.gameId ≠ "")
    (hconf : env.houseConfigured = true)
    (hpend : req.gameId ∉ st.pendingPayouts)
    (hnew : st.payoutHistory.find? (fun p => p.gameId == req.gameId) = none)
    (hvalid : env.walletValid req.playerWallet = true)
    (hbal : (env.houseBalanceLamports : ℤ) < solToLamports req.amount + 5000) :
    processPayout env st req =
      (errorResponse 503 "Insufficient house wallet balance", st) := by
  unfold processPayout
  rw [if_neg (by simp [hw, ha, hg]), if_neg (by simp [hconf]), if_neg hpend,
    hnew]
  simp only [if_neg (by simp [hvalid] : ¬ env.walletValid req.playerWallet = false),
    if_pos hbal, List.erase_cons_head]

end PayoutServer

/-- C1 (amended): after a successful payout for a wager id, a repeated
settlement request for that id returns the cached record with the identical
transfer signature and the same success flag, performs no new transfer (the
transfer log gains exactly one entry across both calls) and leaves the server
state unchanged; the two HTTP bodies are however not byte-identical - the
first carries an explorer URL, the repeat an already-processed message. -/
theorem settle_twice_single_transfer_same_signature
    (env1 env2 : PayoutServer.Env) (st : PayoutServer.ServerState)
    (req : PayoutServer.PayoutRequest)
    (hw : req.playerWallet ≠ "") (ha : req.amount ≠ 0) (hg : req.gameId ≠ "")
    (hconf1 : env1.houseConfigured = true)
    (hpend : req.gameId ∉ st.pendingPayouts)
    (hnew : st.payoutHistory.find? (fun p => p.gameId == req.gameId) = none)
    (hvalid : env1.walletValid req.playerWallet = true)
    (hbal : PayoutServer.solToLamports req.amount + 5000 ≤
      (env1.houseBalanceLamports : ℤ))
    (hsend : env1.sendOk = true) (hcf : env1.confirmOk = true)
    (hconf2 : env2.houseConfigured = true) :
    (PayoutServer.processPayout env1 st req).1.success = true ∧
      (PayoutServer.processPayout env2
        (PayoutServer.processPayout env1 st req).2 req).1.success = true ∧
      (PayoutServer.processPayout env2
          (PayoutServer.processPayout env1 st req).2 req).1.signature =
        (PayoutServer.processPayout env1 st req).1.signature ∧
      (PayoutServer.processPayout env2
          (PayoutServer.processPayout env1 st req).2 req).2 =
        (PayoutServer.processPayout env1 st req).2 ∧
      (PayoutServer.processPayout env1 st req).2.transferLog =
        st.transferLog ++ [(req.playerWallet, PayoutServer.solToLamports req.amount)] ∧
      (PayoutServer.processPayout env2
          (PayoutServer.processPayout env1 st req).2 req).2.transferLog =
        (PayoutServer.processPayout env1 st req).2.transferLog := by
  have h1 := PayoutServer.processPayout_success env1 st req hw ha hg hconf1
    hpend hnew hvalid hbal hsend hcf
  have hfound : ((PayoutServer.processPayout env1 st req).2).payoutHistory.find?
      (fun p => p.gameId == req.gameId) =
      some (PayoutServer.successRecord env1 req) := by
    rw [h1]
    exact (PayoutServer.find?_append_of_none hnew).trans
      (by simp [PayoutServer.successRecord])
  have hpend2 : req.gameId ∉ ((PayoutServer.processPayout env1 st req).2).pendingPayouts := by
    rw [h1]; exact hpend
  have h2 := PayoutServer.processPayout_cached env2
    (PayoutServer.processPayout env1 st req).2 req
    (PayoutServer.successRecord env1 req) hw ha hg hconf2 hpend2 hfound
  rw [h2, h1]
  simp [PayoutServer.successRecord]

theorem settle_twice_single_transfer_same_signature_witness :
    ("player" : String) ≠ "" ∧ (1 : ℚ) ≠ 0 ∧ ("game-1" : String) ≠ "" ∧
      (PayoutServer.processPayout
        { houseConfigured := true, walletValid := fun _ => true,
          houseBalanceLamports := 10000000000, recentBlockhash := "rb",
          freshSignature := "sig-1", sendOk := true, confirmOk := true, now := 0 }
        { payoutHistory := [], pendingPayouts := [], transferLog := [] }
        { playerWallet := "player", amount := 1, gameId := "game-1",
          blockhash := "bh", slot := 5 }).1.success = true := by
  refine ⟨by decide, by norm_num, by decide, ?_⟩
  exact (settle_twice_single_transfer_same_signature
    { houseConfigured := true, walletValid := fun _ => true,
      houseBalanceLamports := 10000000000, recentBlockhash := "rb",
      freshSignature := "sig-1", sendOk := true, confirmOk := true, now := 0 }
    { houseConfigured := true, walletValid := fun _ => true,
      houseBalanceLamports := 10000000000, recentBlockhash := "rb",
      freshSignature := "sig-1", sendOk := true, confirmOk := true, now := 0 }
    { payoutHistory := [], pendingPayouts := [], transferLog := [] }
    { playerWallet := "player", amount := 1, gameId := "game-1",
      blockhash := "bh", slot := 5 }
    (by decide) (by norm_num) (by decide) rfl (by simp) rfl rfl
    (by norm_num [PayoutServer.solToLamports, PayoutServer.LAMPORTS_PER_SOL])
    rfl rfl rfl).1

/-- Concrete environment for the settlement run: a configured house wallet
with ample balance and a ledger that accepts and confirms the transfer. -/
def cexEnv : PayoutServer.Env :=
  { houseConfigured := true, walletValid := fun _ => true,
    houseBalanceLamports := 10000000000, recentBlockhash := "rb",
    freshSignature := "sig-1", sendOk := true, confirmOk := true, now := 0 }

/-- Concrete payout request used for the settlement run. -/
def cexReq : PayoutServer.PayoutRequest :=
  { playerWallet := "player", amount := 1, gameId := "game-1",
    blockhash := "bh", slot := 5 }

/-- Empty initial server state. -/
def cexSt0 : PayoutServer.ServerState :=
  { payoutHistory := [], pendingPayouts := [], transferLog := [] }

/-- First settlement call. -/
def cexFirst : PayoutServer.PayoutResponse × PayoutServer.ServerState :=
  PayoutServer.processPayout cexEnv cexSt0 cexReq

/-- Repeated settlement call on the state the first call left behind. -/
def cexSecond : PayoutServer.PayoutResponse × PayoutServer.ServerState :=
  PayoutServer.processPayout cexEnv cexFirst.2 cexReq

/-- C1 counterexample: settling the same wager id twice after a successful
payout performs exactly one transfer and both calls succeed with the same
signature, but the two results are not identical: the first response carries
an explorer URL, the second an already-processed message instead. -/
theorem settle_twice_responses_differ :
    cexSecond.2.transferLog.length = 1 ∧
      cexFirst.1.success = cexSecond.1.success ∧
      cexFirst.1.signature = cexSecond.1.signature ∧
      cexFirst.1 ≠ cexSecond.1 := by
  have h1 : cexFirst =
      ({ status := 200, success := true, signature := some cexEnv.freshSignature,
         message := none,
         explorerUrl := some ("https://explorer.solana.com/tx/" ++
           cexEnv.freshSignature ++ "?cluster=devnet"),
         error := none },
       { payoutHistory := cexSt0.payoutHistory ++
           [PayoutServer.successRecord cexEnv cexReq]
         pendingPayouts := cexSt0.pendingPayouts
         transferLog := cexSt0.transferLog ++
           [(cexReq.playerWallet, PayoutServer.solToLamports cexReq.amount)] }) :=
    PayoutServer.processPayout_success cexEnv cexSt0 cexReq
      (by decide) (by decide) (by decide) rfl (by simp [cexSt0]) rfl rfl
      (by norm_num [cexReq, cexEnv, PayoutServer.solToLamports,
        PayoutServer.LAMPORTS_PER_SOL]) rfl rfl
  have hfound : (cexFirst.2).payoutHistory.find?
      (fun p => p.gameId == cexReq.gameId) =
      some (PayoutServer.successRecord cexEnv cexReq) := by
    rw [h1]; decide
  have hpend2 : cexReq.gameId ∉ cexFirst.2.pendingPayouts := by
    rw [h1]; simp [cexSt0]
  have h2 : cexSecond =
      ({ status := 200, success := true,
         signature := some (PayoutServer.successRecord cexEnv cexReq).signature,
         message := some "Payout already processed", explorerUrl := none,
         error := none }, cexFirst.2) :=
    PayoutServer.processPayout_cached cexEnv cexFirst.2 cexReq
      (PayoutServer.successRecord cexEnv cexReq)
      (by decide) (by decide) (by decide) rfl hpend2 hfound
  refine ⟨?_, ?_, ?_, ?_⟩
  · rw [h2, h1]; simp [cexSt0]
  · rw [h2, h1]
  · rw [h2, h1]; decide
  · rw [h2, h1]; decide

/-- C8: whenever a payout is requested and the house balance is below the
payout amount plus the 5000-lamport fee, the request fails fast with the
insufficient-balance error: no transfer is sent, no payout record is created,
the server state is unchanged (so the wager stays retryable; the server
stores no game result, so the recorded win cannot be reclassified), and a
retry after a balance top-up succeeds and sends exactly one transfer. -/
theorem payout_insufficient_balance_fails_fast
    (env envT : PayoutServer.Env) (st : PayoutServer.ServerState)
    (req : PayoutServer.PayoutRequest)
    (hw : req.playerWallet ≠ "") (ha : req.amount ≠ 0) (hg : req.gameId ≠ "")
    (hconf : env.houseConfigured = true)
    (hpend : req.gameId ∉ st.pendingPayouts)
    (hnew : st.payoutHistory.find? (fun p => p.gameId == req.gameId) = none)
    (hvalid : env.walletValid req.playerWallet = true)
    (hbal : (env.houseBalanceLamports : ℤ) <
      PayoutServer.solToLamports req.amount + 5000)
    (hconfT : envT.houseConfigured = true)
    (hvalidT : envT.walletValid req.playerWallet = true)
    (hbalT : PayoutServer.solToLamports req.amount + 5000 ≤
      (envT.houseBalanceLamports : ℤ))
    (hsendT : envT.sendOk = true) (hcfT : envT.confirmOk = true) :
    (PayoutServer.processPayout env st req).1.success = false ∧
      (PayoutServer.processPayout env st req).1.error =
        some "Insufficient house wallet balance" ∧
      (PayoutServer.processPayout env st req).1.signature = none ∧
      (PayoutServer.processPayout env st req).2 = st ∧
      (PayoutServer.processPayout envT
        (PayoutServer.processPayout env st req).2 req).1.success = true ∧
      (PayoutServer.processPayout envT
          (PayoutServer.processPayout env st req).2 req).2.transferLog =
        st.transferLog ++ [(req.playerWallet, PayoutServer.solToLamports req.amount)] := by
  have h1 := PayoutServer.processPayout_insufficient env st req hw ha hg hconf
    hpend hnew hvalid hbal
  have h2 := PayoutServer.processPayout_success envT st req hw ha hg hconfT
    hpend hnew hvalidT hbalT hsendT hcfT
  rw [h1]
  simp [PayoutServer.errorResponse, h2]

theorem payout_insufficient_balance_fails_fast_witness :
    ("player" : String) ≠ "" ∧ (1 : ℚ) ≠ 0 ∧ ("game-1" : String) ≠ "" ∧
      (((1000 : ℕ) : ℤ) < PayoutServer.solToLamports 1 + 5000) ∧
      (PayoutServer.processPayout
        { houseConfigured := true, walletValid := fun _ => true,
          houseBalanceLamports := 1000, recentBlockhash := "rb",
          freshSignature := "sig-1", sendOk := true, confirmOk := true, now := 0 }
        cexSt0 cexReq).1.success = false := by
  refine ⟨by decide, by norm_num, by decide,
    by norm_num [PayoutServer.solToLamports, PayoutServer.LAMPORTS_PER_SOL], ?_⟩
  exact (payout_insufficient_balance_fails_fast
    { houseConfigured := true, walletValid := fun _ => true,
      houseBalanceLamports := 1000, recentBlockhash := "rb",
      freshSignature := "sig-1", sendOk := true, confirmOk := true, now := 0 }
    cexEnv cexSt0 cexReq
    (by decide) (by decide) (by decide) rfl (by simp [cexSt0]) rfl rfl
    (by norm_num [cexReq, PayoutServer.solToLamports, PayoutServer.LAMPORTS_PER_SOL])
    rfl rfl
    (by norm_num [cexReq, cexEnv, PayoutServer.solToLamports,
      PayoutServer.LAMPORTS_PER_SOL])
    rfl rfl).1

theorem generateProvablyFairResult_seed (sha : Sha) (bh : String) (slot : Nat)
    (wc : ℚ) (us : Option String) :
    (generateProvablyFairResult sha bh slot wc us).seed = combinedSeed bh slot us :=
  rfl

namespace DiceFlow

/-- Observable events of one run of `rollDice` in the dice game component. -/
inductive Event
  | escrowSubmitted (reference : String)
  | escrowConfirmed (reference : String)
  | seedDerived (seed : String)
  | resolved (won : Bool)
  | aborted
deriving DecidableEq, Repr

/-- Environment of one `rollDice` run: the signature of the bet transfer to
the house wallet (the wager's confirmed escrow reference), whether its
confirmation succeeds, and the fresh blockhash and slot that
`generateProvablyFairResult` fetches afterwards. -/
structure DiceEnv where
  escrowReference : String
  escrowConfirmOk : Bool
  fairBlockhash : String
  fairSlot : ℕ
deriving Repr

/-- The dice-roll seed built in `rollDice`:
`fairResult.blockhash-fairResult.slot-publicKey-dice`. -/
def diceSeed (bh : String) (slot : ℕ) (player : String) : String :=
  combinedSeed bh slot (some player) ++ "-dice"

/-- From `rollDice`, as the sequence of observable events: submit the stake
transfer to the house wallet and wait for confirmation; a failed
confirmation throws, aborting the run with no outcome; otherwise call
`generateProvablyFairResult` - which fetches a fresh latest blockhash and
slot and derives its seed from them plus the player key - then derive the
dice-roll seed and resolve the roll against the target. -/
def rollDiceTrace (sha : Sha) (env : DiceEnv) (player : String)
    (winChance : ℚ) (rollOver : Bool) (target : ℕ) : List Event :=
  if env.escrowConfirmOk then
    let fair := generateProvablyFairResult sha env.fairBlockhash env.fairSlot
      winChance (some player)
    let roll := Dice.rollResult
      (firstByte (sha (diceSeed env.fairBlockhash env.fairSlot player)))
    [Event.escrowSubmitted env.escrowReference,
     Event.escrowConfirmed env.escrowReference,
     Event.seedDerived fair.seed,
     Event.seedDerived (diceSeed env.fairBlockhash env.fairSlot player),
     Event.resolved (Dice.didWin rollOver target roll)]
  else
    [Event.escrowSubmitted env.escrowReference, Event.aborted]

/-- Whether an event is a seed derivation. -/
def isSeedDerived : Event → Bool
  | Event.seedDerived _ => true
  | _ => false

end DiceFlow

/-- Hash model used in the concrete dice runs: every string hashes to the
one-byte digest 0 (the choice is irrelevant, seeds are compared as strings). -/
def cexSha : Sha := fun _ => [0]

/-- First concrete wager: escrow reference escrow-sig-A. -/
def diceEnvA : DiceFlow.DiceEnv :=
  { escrowReference := "escrow-sig-A", escrowConfirmOk := true,
    fairBlockhash := "fresh-bh", fairSlot := 7 }

/-- Second concrete wager: a different escrow reference, same fetched
blockhash and slot, same player. -/
def diceEnvB : DiceFlow.DiceEnv :=
  { escrowReference := "escrow-sig-B", escrowConfirmOk := true,
    fairBlockhash := "fresh-bh", fairSlot := 7 }

/-- C2 counterexample: two distinct wagers with different confirmed escrow
references, sharing the fetched blockhash, slot and player, derive
byte-identical seed material - both the fairness seed and the dice-roll
seed - so the seed includes neither the wager's confirmed escrow reference
nor a wager-unique nonce (the user seed is the player's public key, shared
by all of that player's wagers). -/
theorem seed_material_ignores_escrow_reference :
    diceEnvA.escrowReference ≠ diceEnvB.escrowReference ∧
      (generateProvablyFairResult cexSha diceEnvA.fairBlockhash
          diceEnvA.fairSlot 50 (some "player")).seed =
        (generateProvablyFairResult cexSha diceEnvB.fairBlockhash
          diceEnvB.fairSlot 50 (some "player")).seed ∧
      (DiceFlow.rollDiceTrace cexSha diceEnvA "player" 50 true 50).filter
          DiceFlow.isSeedDerived =
        (DiceFlow.rollDiceTrace cexSha diceEnvB "player" 50 true 50).filter
          DiceFlow.isSeedDerived := by
  refine ⟨by decide, rfl, ?_⟩
  decide

/-- C2 (amended): seed derivation for a wager never occurs before that
wager's own escrow confirmation - in every run each derivation event appears
strictly after the escrow-confirmed event, and a failed confirmation aborts
the run before any derivation - but the derived seed material consists of a
freshly fetched blockhash, the current slot and the player's public key (with
a dice suffix for the roll seed): it does not include the confirmed escrow
reference, and its only wager-varying parts are the fetched blockhash and
slot, not a wager-unique nonce. -/
theorem seed_derivation_after_escrow_confirmation
    (sha : Sha) (env : DiceFlow.DiceEnv) (player : String) (wc : ℚ)
    (rollOver : Bool) (target : ℕ) (s : String)
    (hmem : DiceFlow.Event.seedDerived s ∈
      DiceFlow.rollDiceTrace sha env player wc rollOver target) :
    env.escrowConfirmOk = true ∧
      (∃ i j : ℕ, i < j ∧
        (DiceFlow.rollDiceTrace sha env player wc rollOver target).get? i =
          some (DiceFlow.Event.escrowConfirmed env.escrowReference) ∧
        (DiceFlow.rollDiceTrace sha env player wc rollOver target).get? j =
          some (DiceFlow.Event.seedDerived s)) ∧
      (s = combinedSeed env.fairBlockhash env.fairSlot (some player) ∨
        s = DiceFlow.diceSeed env.fairBlockhash env.fairSlot player) := by
  by_cases h : env.escrowConfirmOk = true
  · unfold DiceFlow.rollDiceTrace at hmem ⊢
    rw [if_pos h] at hmem ⊢
    have hmem2 : s = (generateProvablyFairResult sha env.fairBlockhash
          env.fairSlot wc (some player)).seed ∨
        s = DiceFlow.diceSeed env.fairBlockhash env.fairSlot player := by
      simpa using hmem
    rcases hmem2 with rfl | rfl
    · exact ⟨h, ⟨1, 2, by omega, rfl, rfl⟩, Or.inl rfl⟩
    · exact ⟨h, ⟨1, 3, by omega, rfl, rfl⟩, Or.inr rfl⟩
  · unfold DiceFlow.rollDiceTrace at hmem
    rw [if_neg h] at hmem
    simp at hmem

theorem seed_derivation_after_escrow_confirmation_witness :
    DiceFlow.Event.seedDerived (combinedSeed "fresh-bh" 7 (some "player")) ∈
        DiceFlow.rollDiceTrace cexSha diceEnvA "player" 50 true 50 ∧
      (diceEnvA.escrowConfirmOk = true ∧
        (∃ i j : ℕ, i < j ∧
          (DiceFlow.rollDiceTrace cexSha diceEnvA "player" 50 true 50).get? i =
            some (DiceFlow.Event.escrowConfirmed diceEnvA.escrowReference) ∧
          (DiceFlow.rollDiceTrace cexSha diceEnvA "player" 50 true 50).get? j =
            some (DiceFlow.Event.seedDerived
              (combinedSeed "fresh-bh" 7 (some "player")))) ∧
        (combinedSeed "fresh-bh" 7 (some "player") =
            combinedSeed diceEnvA.fairBlockhash diceEnvA.fairSlot (some "player") ∨
          combinedSeed "fresh-bh" 7 (some "player") =
            DiceFlow.diceSeed diceEnvA.fairBlockhash diceEnvA.fairSlot "player")) :=
  ⟨by decide,
    seed_derivation_after_escrow_confirmation cexSha diceEnvA "player" 50 true 50
      (combinedSeed "fresh-bh" 7 (some "player")) (by decide)⟩

end Casino
